import Mathlib

/-!
Shallow embedding of the Flappy Bird clone (fullest variant:
`src/images/test.py`; `src/main.py` is a near-duplicate draft).
Positions and durations are modelled exactly over the rationals
(decimal literals of the source become exact rationals); the bird's
vertical position uses the reals because the climb easing evaluates a
cosine.  Pixel surfaces and masks are external pygame data: image and
mask handles are abstract tags, and the pixel-mask collision result is
supplied to the game tick as an oracle input.  The global millisecond
clock read by `pygame.time.get_ticks()` is an explicit argument of the
accessors that read it.
-/

namespace FlappyBird

/-- `FPS = 60` from the source header. -/
def FPS : ℚ := 60

/-- `SCREEN_WIDTH = 550`. -/
def SCREEN_WIDTH : ℕ := 550

/-- `SCREEN_HEIGHT = 500`. -/
def SCREEN_HEIGHT : ℕ := 500

/-- `ANIMATION_SPEED = 0.1` (exact rational 1/10). -/
def ANIMATION_SPEED : ℚ := 1 / 10

/-- `frames_to_msec(frames, fps) = 1000.0 * frames / fps`. -/
def frames_to_msec (frames fps : ℚ) : ℚ := 1000 * frames / fps

/-- `msec_to_frames(milliseconds, fps) = fps * milliseconds / 1000.0`. -/
def msec_to_frames (milliseconds fps : ℚ) : ℚ := fps * milliseconds / 1000

/-- The bird entity.  `x`, `y` are its position (`x` is set once in the
constructor and never written again), `free_fall_time` is the remaining
climb time in milliseconds.  The two wing images and their two pixel
masks are external pygame surfaces, modelled as abstract numeric
handles. -/
structure Bird where
  x : ℚ
  y : ℝ
  free_fall_time : ℚ
  wing_up_img : ℕ
  wing_down_img : ℕ
  mask_wingup : ℕ
  mask_wingdown : ℕ

namespace Bird

/-- `Bird.WIDTH = 32`. -/
def WIDTH : ℕ := 32

/-- `Bird.HEIGHT = 32`. -/
def HEIGHT : ℕ := 32

/-- `Bird.SINK_SPEED = 0.12` (exact rational 12/100). -/
def SINK_SPEED : ℚ := 12 / 100

/-- `Bird.CLIMB_SPEED = 0.19` (exact rational 19/100). -/
def CLIMB_SPEED : ℚ := 19 / 100

/-- `Bird.CLIMB_DURATION = 400` milliseconds. -/
def CLIMB_DURATION : ℚ := 400

end Bird

/-- `Bird.update(delta_frames)`: if `free_fall_time > 0`, apply the eased
climb `y -= CLIMB_SPEED * frames_to_msec(delta_frames) *
(1 - cos(frac_climb_done * pi))` with
`frac_climb_done = 1 - free_fall_time / CLIMB_DURATION`, then decrement
`free_fall_time` by the elapsed milliseconds; otherwise
`y += SINK_SPEED * frames_to_msec(delta_frames)`. -/
noncomputable def Bird.update (delta_frames : ℚ) (b : Bird) : Bird :=
  if 0 < b.free_fall_time then
    { b with
      y := b.y - (Bird.CLIMB_SPEED : ℝ) * ((frames_to_msec delta_frames FPS : ℚ) : ℝ) *
        (1 - Real.cos (((1 - b.free_fall_time / Bird.CLIMB_DURATION : ℚ) : ℝ) * Real.pi))
      free_fall_time := b.free_fall_time - frames_to_msec delta_frames FPS }
  else
    { b with y := b.y + (Bird.SINK_SPEED : ℝ) * ((frames_to_msec delta_frames FPS : ℚ) : ℝ) }

/-- `Bird.animate`: returns the wing-up image when
`pygame.time.get_ticks() % 31 >= 4`, else the wing-down image.  The
clock reading is an explicit argument here because the source reads the
process-global millisecond clock. -/
def Bird.animate (b : Bird) (ticks_now : ℕ) : ℕ :=
  if 4 ≤ ticks_now % 31 then b.wing_up_img else b.wing_down_img

/-- `Bird.mask`: returns the wing-up mask when
`pygame.time.get_ticks() % 500 >= 250`, else the wing-down mask. -/
def Bird.mask (b : Bird) (ticks_now : ℕ) : ℕ :=
  if 250 ≤ ticks_now % 500 then b.mask_wingup else b.mask_wingdown

/-- `Bird.rect`: `Rect(x, y, WIDTH, HEIGHT)`. -/
def Bird.rect (b : Bird) : ℚ × ℝ × ℕ × ℕ :=
  (b.x, b.y, Bird.WIDTH, Bird.HEIGHT)

/-- The pipe-pair obstacle: `x` position (float in the source, exact
rational here), the `score_count` flag, and the top and bottom piece
counts (post end-cap values, as stored on the object). -/
structure PipePair where
  x : ℚ
  score_count : Bool
  pipe_tp : ℕ
  pipe_bl : ℕ

namespace PipePair

/-- `PipePair.WIDTH = 80`. -/
def WIDTH : ℕ := 80

/-- `PipePair.PIECE_HEIGHT = 32`. -/
def PIECE_HEIGHT : ℕ := 32

/-- `PipePair.ADD_INTERVAL = 3500` milliseconds. -/
def ADD_INTERVAL : ℕ := 3500

end PipePair

/-- The `pipe_length` constant computed in the constructor:
`int((SCREEN_HEIGHT - 3*Bird.HEIGHT - 3*PIECE_HEIGHT) / PIECE_HEIGHT)`;
all quantities are positive so Python's truncation is floor division. -/
def pipe_length : ℕ :=
  (SCREEN_HEIGHT - 3 * Bird.HEIGHT - 3 * PipePair.PIECE_HEIGHT) / PipePair.PIECE_HEIGHT

/-- The constructor's random draw for the bottom pipe:
`pipe_bl = randint(1, pipe_length)` returns the draw itself. -/
def PipePair.draw_bl (r : ℕ) : ℕ := r

/-- The constructor's derived top count (pre end-cap):
`pipe_tp = pipe_length - pipe_bl`. -/
def PipePair.draw_tp (r : ℕ) : ℕ := pipe_length - r

/-- `PipePair.__init__` with random draw `r` (the value returned by
`randint(1, pipe_length)`): `x = float(SCREEN_WIDTH - 1)`,
`score_count = False`, bottom and top counts from the draw, then both
incremented by one to compensate for the added end pieces. -/
def PipePair.init (r : ℕ) : PipePair :=
  { x := (SCREEN_WIDTH : ℚ) - 1
    score_count := false
    pipe_tp := PipePair.draw_tp r + 1
    pipe_bl := PipePair.draw_bl r + 1 }

/-- `PipePair.top_height_pixel = pipe_tp * PIECE_HEIGHT`. -/
def PipePair.top_height_pixel (p : PipePair) : ℕ := p.pipe_tp * PipePair.PIECE_HEIGHT

/-- `PipePair.bottom_height_pixel = pipe_bl * PIECE_HEIGHT`. -/
def PipePair.bottom_height_pixel (p : PipePair) : ℕ := p.pipe_bl * PipePair.PIECE_HEIGHT

/-- `PipePair.visible`: `-PipePair.WIDTH < x < SCREEN_WIDTH`. -/
def PipePair.visible (p : PipePair) : Bool :=
  decide (-(PipePair.WIDTH : ℚ) < p.x) && decide (p.x < (SCREEN_WIDTH : ℚ))

/-- `PipePair.rect`: `Rect(x, 0, WIDTH, PIECE_HEIGHT)`. -/
def PipePair.rect (p : PipePair) : ℚ × ℕ × ℕ × ℕ :=
  (p.x, 0, PipePair.WIDTH, PipePair.PIECE_HEIGHT)

/-- `PipePair.update(delta_frames)`:
`x -= ANIMATION_SPEED * frames_to_msec(delta_frames)`. -/
def PipePair.update (delta_frames : ℚ) (p : PipePair) : PipePair :=
  { p with x := p.x - ANIMATION_SPEED * frames_to_msec delta_frames FPS }

/-- The discrete input events the loop recognizes: quit (`QUIT` or
escape key), pause toggle (`K_PAUSE`/`K_p`), flap (`MOUSEBUTTONUP` or
up/return/space key), and anything else (ignored). -/
inductive GameEvent where
  | quit
  | pauseKey
  | flap
  | other

/-- The mutable state of `main`'s while loop: the bird, the deque of
pipes (front = oldest), `frame_clock`, `score`, and the `paused` and
`done` flags. -/
structure GameState where
  bird : Bird
  pipes : List PipePair
  frame_clock : ℕ
  score : ℕ
  paused : Bool
  done : Bool

/-- The event-polling `for` loop: quit sets `done` and breaks out of the
event loop (remaining events are discarded; the rest of the tick still
runs), the pause key toggles `paused`, a flap resets the bird's
`free_fall_time` to `CLIMB_DURATION`, other events are ignored. -/
def processEvents : List GameEvent → GameState → GameState
  | [], s => s
  | e :: rest, s =>
    match e with
    | .quit => { s with done := true }
    | .pauseKey => processEvents rest { s with paused := !s.paused }
    | .flap =>
        processEvents rest
          { s with bird := { s.bird with free_fall_time := Bird.CLIMB_DURATION } }
    | .other => processEvents rest s

/-- The retirement loop `while pipes and not pipes[0].visible:
pipes.popleft()`. -/
def retirePipes : List PipePair → List PipePair
  | [] => []
  | p :: ps => if p.visible then p :: ps else retirePipes ps

/-- The body of the scoring `for` loop applied to one pipe: if
`p.x + PipePair.WIDTH < bird.x and not p.score_count`, set the flag
(the accompanying score increment is counted by `scoreGain`). -/
def scoreOne (bird_x : ℚ) (p : PipePair) : PipePair :=
  if p.x + (PipePair.WIDTH : ℚ) < bird_x ∧ p.score_count = false then
    { p with score_count := true }
  else p

/-- The number of pipes the scoring loop newly scores in one pass. -/
def scoreGain (bird_x : ℚ) (ps : List PipePair) : ℕ :=
  (ps.filter
    (fun p => decide (p.x + (PipePair.WIDTH : ℚ) < bird_x) && !p.score_count)).length

/-- The scoring `for` loop itself, literally: walk the pipes in order;
on each pipe with `p.x + PipePair.WIDTH < bird.x and not p.score_count`
increment the score by one and set the pipe's flag. -/
def scoreLoop (bird_x : ℚ) : List PipePair → ℕ → List PipePair × ℕ
  | [], score => ([], score)
  | p :: ps, score =>
    if p.x + (PipePair.WIDTH : ℚ) < bird_x ∧ p.score_count = false then
      let rest := scoreLoop bird_x ps (score + 1)
      ({ p with score_count := true } :: rest.1, rest.2)
    else
      let rest := scoreLoop bird_x ps score
      (p :: rest.1, rest.2)

/-- The spawn test divisor `msec_to_frames(PipePair.ADD_INTERVAL)`:
`60 * 3500 / 1000 = 210.0`, an exact integer, so the float modulus
`frame_clock % 210.0` is zero exactly when `frame_clock % 210 = 0`. -/
def add_interval_frames : ℕ := 210

/-- The spawn block: `if not (paused or frame_clock %
msec_to_frames(ADD_INTERVAL)): pipes.append(PipePair(...))`, with `r`
the constructor's random draw. -/
def spawnStep (r : ℕ) (s : GameState) : GameState :=
  if !s.paused && s.frame_clock % add_interval_frames == 0 then
    { s with pipes := s.pipes ++ [PipePair.init r] }
  else s

/-- The terminal-condition block: `if pipe_collision or 0 >= bird.y or
bird.y >= SCREEN_HEIGHT - Bird.HEIGHT: done = True`.  The pixel-mask
collision result is the oracle input `pipe_collision`. -/
noncomputable def collisionStep (pipe_collision : Bool) (s : GameState) : GameState :=
  if pipe_collision = true ∨ s.bird.y ≤ 0 ∨
      ((SCREEN_HEIGHT : ℝ) - (Bird.HEIGHT : ℝ)) ≤ s.bird.y then
    { s with done := true }
  else s

/-- The retirement block applied to the state. -/
def retireStep (s : GameState) : GameState :=
  { s with pipes := retirePipes s.pipes }

/-- The pipe-scrolling block: `for p in pipes: p.update()`. -/
def pipesUpdateStep (s : GameState) : GameState :=
  { s with pipes := s.pipes.map (PipePair.update 1) }

/-- The bird physics block: `bird.update()`. -/
noncomputable def birdUpdateStep (s : GameState) : GameState :=
  { s with bird := Bird.update 1 s.bird }

/-- The scoring block applied to the state. -/
def scoreStep (s : GameState) : GameState :=
  { s with
    pipes := (scoreLoop s.bird.x s.pipes s.score).1
    score := (scoreLoop s.bird.x s.pipes s.score).2 }

/-- The end-of-iteration `frame_clock += 1`. -/
def frameClockStep (s : GameState) : GameState :=
  { s with frame_clock := s.frame_clock + 1 }

/-- One iteration of `main`'s while loop (`src/images/test.py` lines
245-296), with the externally supplied inputs made explicit: the drained
event list, the constructor's random draw `r` (used only if a pipe is
spawned this tick), and the pixel-mask collision oracle
`pipe_collision` (the value of `any(p.collides_with(bird) ...)`, which
depends on external pixel data).  Steps, in source order: spawn when not
paused and `frame_clock % 210 == 0`; poll events; `continue` when
paused; set `done` on collision or vertical out-of-bounds (the loop body
still finishes); retire invisible front pipes; scroll every pipe; update
the bird; run the scoring loop; increment `frame_clock`. -/
noncomputable def tick (events : List GameEvent) (r : ℕ) (pipe_collision : Bool)
    (s : GameState) : GameState :=
  let s2 := processEvents events (spawnStep r s)
  if s2.paused then s2
  else
    frameClockStep (scoreStep (birdUpdateStep (pipesUpdateStep
      (retireStep (collisionStep pipe_collision s2)))))

/-- The external inputs consumed by one tick. -/
structure TickInput where
  events : List GameEvent
  draw : ℕ
  pipe_collision : Bool

/-- A whole run of the game loop on a stream of per-tick inputs. -/
noncomputable def run (inputs : List TickInput) (s : GameState) : GameState :=
  inputs.foldl (fun st i => tick i.events i.draw i.pipe_collision st) s

/-- A concrete bird with its climb timer expired, used as witness data. -/
def groundedBird : Bird :=
  { x := 82, y := 250, free_fall_time := 0, wing_up_img := 1, wing_down_img := 0
    mask_wingup := 1, mask_wingdown := 0 }

/-- A concrete on-screen pipe. -/
def visPipe : PipePair :=
  { x := 500, score_count := false, pipe_tp := 5, pipe_bl := 6 }

/-- A concrete pipe that has scrolled past the left edge. -/
def hiddenPipe : PipePair :=
  { x := -100, score_count := false, pipe_tp := 5, pipe_bl := 6 }

/-- A concrete pipe whose point has already been awarded. -/
def scoredPipe : PipePair :=
  { x := -100, score_count := true, pipe_tp := 5, pipe_bl := 6 }

/-- A concrete running (unpaused) state. -/
def initState : GameState :=
  { bird := groundedBird, pipes := [], frame_clock := 1, score := 0
    paused := false, done := false }

/-- A concrete paused state. -/
def pausedState : GameState :=
  { bird := groundedBird, pipes := [], frame_clock := 1, score := 0
    paused := true, done := false }

/-- A bird resting exactly on the lower boundary
`SCREEN_HEIGHT - Bird.HEIGHT = 468`. -/
def boundaryBird : Bird :=
  { x := 82, y := 468, free_fall_time := 0, wing_up_img := 1, wing_down_img := 0
    mask_wingup := 1, mask_wingdown := 0 }

/-- A running state whose bird sits exactly on the lower boundary. -/
def boundaryState : GameState :=
  { bird := boundaryBird, pipes := [], frame_clock := 1, score := 0
    paused := false, done := false }

/-- Event polling never touches the score, the pipe list, or the frame
counter (it only writes `done`, `paused` and the bird's climb timer). -/
theorem processEvents_preserves (ev : List GameEvent) (s : GameState) :
    (processEvents ev s).score = s.score ∧ (processEvents ev s).pipes = s.pipes ∧
      (processEvents ev s).frame_clock = s.frame_clock := by
  induction ev generalizing s with
  | nil => exact ⟨rfl, rfl, rfl⟩
  | cons e rest ih =>
    cases e with
    | quit => exact ⟨rfl, rfl, rfl⟩
    | pauseKey => exact ih _
    | flap => exact ih _
    | other => exact ih _

/-- The spawn block only appends to the pipe list. -/
theorem spawnStep_fields (r : ℕ) (s : GameState) :
    (spawnStep r s).score = s.score ∧ (spawnStep r s).bird = s.bird ∧
      (spawnStep r s).paused = s.paused ∧ (spawnStep r s).done = s.done ∧
      (spawnStep r s).frame_clock = s.frame_clock := by
  unfold spawnStep
  split
  · exact ⟨rfl, rfl, rfl, rfl, rfl⟩
  · exact ⟨rfl, rfl, rfl, rfl, rfl⟩

/-- The terminal-condition block only writes `done`. -/
theorem collisionStep_fields (c : Bool) (s : GameState) :
    (collisionStep c s).score = s.score ∧ (collisionStep c s).pipes = s.pipes ∧
      (collisionStep c s).bird = s.bird ∧ (collisionStep c s).paused = s.paused ∧
      (collisionStep c s).frame_clock = s.frame_clock := by
  unfold collisionStep
  split
  · exact ⟨rfl, rfl, rfl, rfl, rfl⟩
  · exact ⟨rfl, rfl, rfl, rfl, rfl⟩

/-- What the terminal-condition block writes into `done`. -/
theorem collisionStep_done (c : Bool) (s : GameState) :
    (collisionStep c s).done =
      if c = true ∨ s.bird.y ≤ 0 ∨
          ((SCREEN_HEIGHT : ℝ) - (Bird.HEIGHT : ℝ)) ≤ s.bird.y then
        true
      else s.done := by
  unfold collisionStep
  by_cases h : c = true ∨ s.bird.y ≤ 0 ∨
      ((SCREEN_HEIGHT : ℝ) - (Bird.HEIGHT : ℝ)) ≤ s.bird.y
  · rw [if_pos h, if_pos h]
  · rw [if_neg h, if_neg h]

/-- One scoring-loop pass over a cons cell, counted. -/
theorem scoreGain_cons (bird_x : ℚ) (p : PipePair) (ps : List PipePair) :
    scoreGain bird_x (p :: ps) =
      (if p.x + (PipePair.WIDTH : ℚ) < bird_x ∧ p.score_count = false then 1 else 0) +
        scoreGain bird_x ps := by
  unfold scoreGain
  rw [List.filter_cons]
  by_cases hA : p.x + (PipePair.WIDTH : ℚ) < bird_x
  · cases hb : p.score_count
    · simp [hA, hb]
      omega
    · simp [hA, hb]
  · simp [hA]

/-- The scoring loop adds exactly one point per newly scored pipe. -/
theorem scoreLoop_snd (bird_x : ℚ) (ps : List PipePair) (sc : ℕ) :
    (scoreLoop bird_x ps sc).2 = sc + scoreGain bird_x ps := by
  induction ps generalizing sc with
  | nil => simp [scoreLoop, scoreGain]
  | cons p ps ih =>
    rw [scoreGain_cons]
    by_cases h : p.x + (PipePair.WIDTH : ℚ) < bird_x ∧ p.score_count = false
    · simp only [scoreLoop, if_pos h, ih]
      omega
    · simp only [scoreLoop, if_neg h, ih]
      omega

/-- The scoring loop rewrites each pipe independently via `scoreOne`. -/
theorem scoreLoop_fst (bird_x : ℚ) (ps : List PipePair) (sc : ℕ) :
    (scoreLoop bird_x ps sc).1 = ps.map (scoreOne bird_x) := by
  induction ps generalizing sc with
  | nil => simp [scoreLoop]
  | cons p ps ih =>
    by_cases h : p.x + (PipePair.WIDTH : ℚ) < bird_x ∧ p.score_count = false
    · simp only [scoreLoop, if_pos h, List.map_cons, scoreOne]
      exact congrArg _ (ih _)
    · simp only [scoreLoop, if_neg h, List.map_cons, scoreOne]
      exact congrArg _ (ih _)

/-- The scored flag after one pass: it is set exactly when it already
was, or the pipe's trailing edge is strictly left of the bird. -/
theorem scoreOne_flag (bird_x : ℚ) (p : PipePair) :
    (scoreOne bird_x p).score_count =
      (p.score_count || decide (p.x + (PipePair.WIDTH : ℚ) < bird_x)) := by
  unfold scoreOne
  by_cases hA : p.x + (PipePair.WIDTH : ℚ) < bird_x
  · cases hb : p.score_count
    · simp [hA, hb]
    · simp [hA, hb]
  · cases hb : p.score_count
    · simp [hA, hb]
    · simp [hA, hb]

/-- An already-scored pipe is left completely untouched by the scoring
loop (the flag guard prevents double counting). -/
theorem scoreOne_of_scored (bird_x : ℚ) (p : PipePair) (h : p.score_count = true) :
    scoreOne bird_x p = p := by
  unfold scoreOne
  rw [if_neg]
  intro hc
  rw [h] at hc
  exact absurd hc.2 (by simp)

/-- One tick never decreases the score. -/
theorem tick_score_mono (ev : List GameEvent) (r : ℕ) (c : Bool) (s : GameState) :
    s.score ≤ (tick ev r c s).score := by
  unfold tick
  set s2 := processEvents ev (spawnStep r s) with hs2
  have h2 : s2.score = s.score := by
    rw [hs2, (processEvents_preserves ev (spawnStep r s)).1, (spawnStep_fields r s).1]
  by_cases hp : s2.paused = true
  · rw [if_pos hp, h2]
  · rw [if_neg hp]
    set X := birdUpdateStep (pipesUpdateStep (retireStep (collisionStep c s2))) with hX
    have hXs : X.score = s.score := by
      rw [hX]
      show (collisionStep c s2).score = s.score
      rw [(collisionStep_fields c s2).1, h2]
    have hss : (frameClockStep (scoreStep X)).score = X.score + scoreGain X.bird.x X.pipes := by
      show (scoreLoop X.bird.x X.pipes X.score).2 = X.score + scoreGain X.bird.x X.pipes
      exact scoreLoop_snd _ _ _
    rw [hss, hXs]
    exact Nat.le_add_right _ _

/-- Over a whole run of the loop the score never decreases. -/
theorem run_score_mono (inputs : List TickInput) (s : GameState) :
    s.score ≤ (run inputs s).score := by
  induction inputs generalizing s with
  | nil => exact le_refl _
  | cons i rest ih =>
    have hstep : run (i :: rest) s = run rest (tick i.events i.draw i.pipe_collision s) := rfl
    rw [hstep]
    exact le_trans (tick_score_mono _ _ _ _) (ih _)

/-- A pipe that is visible and sits at the back of the deque survives
the retirement loop. -/
theorem mem_retirePipes_of_visible_last (p : PipePair) (hvis : p.visible = true)
    (ps : List PipePair) : p ∈ retirePipes (ps ++ [p]) := by
  induction ps with
  | nil => simp [retirePipes, hvis]
  | cons q qs ih =>
    cases hq : q.visible
    · simpa [retirePipes, hq] using ih
    · simp [retirePipes, hq]

/-- Retirement removes exactly an all-invisible prefix. -/
theorem retire_decomp (ps : List PipePair) :
    ∃ dropped, ps = dropped ++ retirePipes ps ∧ ∀ q ∈ dropped, q.visible = false := by
  induction ps with
  | nil => exact ⟨[], rfl, by simp⟩
  | cons p ps ih =>
    cases hp : p.visible
    · obtain ⟨d, hd, hall⟩ := ih
      refine ⟨p :: d, ?_, ?_⟩
      · have hEq : retirePipes (p :: ps) = retirePipes ps := by
          simp [retirePipes, hp]
        rw [hEq]
        calc p :: ps = p :: (d ++ retirePipes ps) := by rw [← hd]
          _ = (p :: d) ++ retirePipes ps := rfl
      · intro q hq
        rcases List.mem_cons.mp hq with h | h
        · rw [h]; exact hp
        · exact hall q h
    · refine ⟨[], ?_, by simp⟩
      have hEq : retirePipes (p :: ps) = p :: ps := by
        simp [retirePipes, hp]
      rw [hEq]
      rfl

/-- The head of the list surviving retirement is always visible. -/
theorem retirePipes_head_visible :
    ∀ (ps rest : List PipePair) (q : PipePair),
      retirePipes ps = q :: rest → q.visible = true := by
  intro ps
  induction ps with
  | nil =>
    intro rest q h
    simp [retirePipes] at h
  | cons p ps ih =>
    intro rest q h
    cases hp : p.visible
    · have hEq : retirePipes (p :: ps) = retirePipes ps := by
        simp [retirePipes, hp]
      rw [hEq] at h
      exact ih rest q h
    · have hEq : retirePipes (p :: ps) = p :: ps := by
        simp [retirePipes, hp]
      rw [hEq] at h
      injection h with h1 h2
      rw [← h1]
      exact hp

/-- `visPipe` is on screen. -/
theorem visPipe_visible : visPipe.visible = true := by
  norm_num [PipePair.visible, visPipe, PipePair.WIDTH, SCREEN_WIDTH]

/-- `hiddenPipe` is off screen. -/
theorem hiddenPipe_visible : hiddenPipe.visible = false := by
  norm_num [PipePair.visible, hiddenPipe, PipePair.WIDTH, SCREEN_WIDTH]

/-- Retiring the concrete two-pipe deque drops exactly the hidden head. -/
theorem retire_concrete_eq : retirePipes [hiddenPipe, visPipe] = [visPipe] := by
  simp [retirePipes, hiddenPipe_visible, visPipe_visible]

/-- The divisor used by the spawn test is the value of `msec_to_frames`
at `ADD_INTERVAL`: `60 * 3500 / 1000 = 210` exactly. -/
theorem add_interval_frames_eq :
    msec_to_frames (PipePair.ADD_INTERVAL : ℚ) FPS = (add_interval_frames : ℚ) := by
  unfold msec_to_frames PipePair.ADD_INTERVAL FPS add_interval_frames
  norm_num

/-- Claim C8: the two time-conversion functions are exact inverses over
the rationals: for every `d ≥ 0` and `fps > 0`,
`msec_to_frames (frames_to_msec d fps) fps = d`. -/
theorem time_conversion_round_trip (d fps : ℚ) (hd : 0 ≤ d) (hfps : 0 < fps) :
    msec_to_frames (frames_to_msec d fps) fps = d := by
  unfold msec_to_frames frames_to_msec
  field_simp

/-- Witness for the round trip at `d = 3`, `fps = 60`. -/
theorem time_conversion_round_trip_witness :
    0 ≤ (3 : ℚ) ∧ 0 < (60 : ℚ) ∧ msec_to_frames (frames_to_msec 3 60) 60 = 3 :=
  ⟨by decide, by decide, time_conversion_round_trip 3 60 (by decide) (by decide)⟩

/-- Claim C2 (amended): for every admissible draw `r` of
`randint(1, pipe_length)` (that is, `1 ≤ r ≤ pipe_length`), the
pre-end-cap counts satisfy `draw_tp r + draw_bl r = pipe_length` and the
bottom count lies in `[1, pipe_length]`; the top count may be zero (it
is zero exactly when the draw is `pipe_length`). -/
theorem pipe_split_sum_and_range (r : ℕ) (h1 : 1 ≤ r) (h2 : r ≤ pipe_length) :
    PipePair.draw_tp r + PipePair.draw_bl r = pipe_length ∧
    1 ≤ PipePair.draw_bl r ∧ PipePair.draw_bl r ≤ pipe_length := by
  unfold PipePair.draw_tp PipePair.draw_bl
  omega

/-- Witness for the split at the draw `r = 3`: `pipe_length = 9`,
top gets `6`, bottom gets `3`. -/
theorem pipe_split_sum_and_range_witness :
    1 ≤ 3 ∧ 3 ≤ pipe_length ∧
    (PipePair.draw_tp 3 + PipePair.draw_bl 3 = pipe_length ∧
     1 ≤ PipePair.draw_bl 3 ∧ PipePair.draw_bl 3 ≤ pipe_length) :=
  ⟨by decide, by decide, pipe_split_sum_and_range 3 (by decide) (by decide)⟩

/-- Counterexample to claim C2 as stated: the draw `r = 9` is inside the
inclusive `randint(1, pipe_length)` range (`pipe_length = 9`), yet the
bottom count `9` is not in `[1, pipe_length - 1]` and the pre-end-cap
top count is zero. -/
theorem pipe_split_top_zero_counterexample :
    1 ≤ 9 ∧ 9 ≤ pipe_length ∧ ¬(PipePair.draw_bl 9 ≤ pipe_length - 1) ∧
    PipePair.draw_tp 9 = 0 := by
  decide

/-- Claim C4: with no climb time left (`free_fall_time ≤ 0`) and a
positive frame delta, `update` adds exactly
`SINK_SPEED * frames_to_msec d` to `y` (so `y` strictly increases) and
leaves `free_fall_time` unchanged. -/
theorem bird_update_sink (b : Bird) (d : ℚ) (hfall : b.free_fall_time ≤ 0)
    (hd : 0 < d) :
    (Bird.update d b).y = b.y + (Bird.SINK_SPEED : ℝ) * ((frames_to_msec d FPS : ℚ) : ℝ) ∧
    b.y < (Bird.update d b).y ∧
    (Bird.update d b).free_fall_time = b.free_fall_time := by
  have hcond : ¬ (0 < b.free_fall_time) := not_lt.mpr hfall
  unfold Bird.update
  rw [if_neg hcond]
  dsimp only
  refine ⟨rfl, ?_, rfl⟩
  have h1 : (0 : ℚ) < frames_to_msec d FPS := by
    unfold frames_to_msec FPS
    positivity
  have h1r : (0 : ℝ) < ((frames_to_msec d FPS : ℚ) : ℝ) := by exact_mod_cast h1
  have hs : (0 : ℝ) < (Bird.SINK_SPEED : ℝ) := by
    unfold Bird.SINK_SPEED
    norm_num
  nlinarith

/-- Witness for the sink step on `groundedBird` with `d = 1`. -/
theorem bird_update_sink_witness :
    groundedBird.free_fall_time ≤ 0 ∧ (0 : ℚ) < 1 ∧
    ((Bird.update 1 groundedBird).y
        = groundedBird.y + (Bird.SINK_SPEED : ℝ) * ((frames_to_msec 1 FPS : ℚ) : ℝ) ∧
      groundedBird.y < (Bird.update 1 groundedBird).y ∧
      (Bird.update 1 groundedBird).free_fall_time = groundedBird.free_fall_time) :=
  ⟨by decide, by decide, bird_update_sink groundedBird 1 (by decide) (by decide)⟩

/-- Claim C3: after an action event sets `free_fall_time` to
`CLIMB_DURATION` (400 ms), iterating `update` with `delta_frames = 1`
at 60 fps yields strictly upward motion on at least one subsequent
tick: the second tick strictly decreases `y` (the first tick moves `y`
by exactly zero because the easing factor `1 - cos(0)` vanishes). -/
theorem bird_flap_then_climbs (b : Bird) :
    (Bird.update 1 (Bird.update 1 { b with free_fall_time := Bird.CLIMB_DURATION })).y <
      (Bird.update 1 { b with free_fall_time := Bird.CLIMB_DURATION }).y := by
  have hπ := Real.pi_pos
  have hcos : Real.cos ((1 / 24 : ℝ) * Real.pi) < 1 := by
    have hne : Real.cos ((1 / 24 : ℝ) * Real.pi) ≠ 1 := by
      intro h
      have hb1 : -(2 * Real.pi) < (1 / 24 : ℝ) * Real.pi := by nlinarith
      have hb2 : (1 / 24 : ℝ) * Real.pi < 2 * Real.pi := by nlinarith
      have h0 := (Real.cos_eq_one_iff_of_lt_of_lt hb1 hb2).mp h
      nlinarith
    exact lt_of_le_of_ne (Real.cos_le_one _) hne
  simp only [Bird.update, Bird.CLIMB_DURATION, Bird.CLIMB_SPEED, frames_to_msec, FPS]
  norm_num
  nlinarith

/-- Claim C1: scoring is guarded and monotone.  In one pass of the
scoring loop the score grows by exactly the number of pipes whose flag
transitions, each pipe is rewritten independently by `scoreOne`, a
pipe's flag after the pass is its old flag OR-ed with the trigger
condition `x + WIDTH < bird.x` (so it transitions false-to-true at most
once and exactly at the first tick the trailing edge is strictly left of
the bird), an already-scored pipe is untouched, and over any whole run
of the game loop the score is monotonically non-decreasing. -/
theorem score_transitions_guarded_and_monotone :
    (∀ (bird_x : ℚ) (ps : List PipePair) (sc : ℕ),
        (scoreLoop bird_x ps sc).2 = sc + scoreGain bird_x ps) ∧
    (∀ (bird_x : ℚ) (ps : List PipePair) (sc : ℕ),
        (scoreLoop bird_x ps sc).1 = ps.map (scoreOne bird_x)) ∧
    (∀ (bird_x : ℚ) (p : PipePair),
        (scoreOne bird_x p).score_count =
          (p.score_count || decide (p.x + (PipePair.WIDTH : ℚ) < bird_x))) ∧
    (∀ (bird_x : ℚ) (p : PipePair), p.score_count = true → scoreOne bird_x p = p) ∧
    (∀ (inputs : List TickInput) (s : GameState), s.score ≤ (run inputs s).score) :=
  ⟨scoreLoop_snd, scoreLoop_fst, scoreOne_flag, scoreOne_of_scored, run_score_mono⟩

/-- Witness for the scoring properties on a concrete already-scored
pipe and a concrete run. -/
theorem score_transitions_witness :
    (scoreLoop 82 [scoredPipe] 5).2 = 5 + scoreGain 82 [scoredPipe] ∧
    (scoreLoop 82 [scoredPipe] 5).1 = [scoredPipe].map (scoreOne 82) ∧
    (scoreOne 82 scoredPipe).score_count =
      (scoredPipe.score_count || decide (scoredPipe.x + (PipePair.WIDTH : ℚ) < 82)) ∧
    scoreOne 82 scoredPipe = scoredPipe ∧
    initState.score ≤ (run [] initState).score :=
  ⟨score_transitions_guarded_and_monotone.1 82 [scoredPipe] 5,
   score_transitions_guarded_and_monotone.2.1 82 [scoredPipe] 5,
   score_transitions_guarded_and_monotone.2.2.1 82 scoredPipe,
   score_transitions_guarded_and_monotone.2.2.2.1 82 scoredPipe rfl,
   score_transitions_guarded_and_monotone.2.2.2.2 [] initState⟩

/-- Claim C6: each tick the retirement loop removes exactly an
all-invisible prefix from the front of the deque; if the oldest pipe is
still visible nothing at all is removed (so no pipe behind a visible
oldest pipe is ever removed); whatever survives has a visible head; and
every scroll update strictly decreases a pipe's `x`, so a pipe crosses
the invisibility threshold going leftward and is retired exactly once. -/
theorem obstacle_retirement_front_only :
    (∀ ps : List PipePair, ∃ dropped, ps = dropped ++ retirePipes ps ∧
        ∀ q ∈ dropped, q.visible = false) ∧
    (∀ (p : PipePair) (rest : List PipePair), p.visible = true →
        retirePipes (p :: rest) = p :: rest) ∧
    (∀ (ps rest : List PipePair) (q : PipePair),
        retirePipes ps = q :: rest → q.visible = true) ∧
    (∀ q : PipePair, (PipePair.update 1 q).x < q.x) := by
  refine ⟨retire_decomp, ?_, retirePipes_head_visible, ?_⟩
  · intro p rest hvis
    unfold retirePipes
    rw [if_pos hvis]
  · intro q
    unfold PipePair.update ANIMATION_SPEED frames_to_msec FPS
    norm_num

/-- Witness for the retirement properties on concrete pipes. -/
theorem obstacle_retirement_front_only_witness :
    (∃ dropped, [hiddenPipe, visPipe] = dropped ++ retirePipes [hiddenPipe, visPipe] ∧
        ∀ q ∈ dropped, q.visible = false) ∧
    retirePipes [visPipe, hiddenPipe] = [visPipe, hiddenPipe] ∧
    visPipe.visible = true ∧
    (PipePair.update 1 visPipe).x < visPipe.x :=
  ⟨obstacle_retirement_front_only.1 [hiddenPipe, visPipe],
   obstacle_retirement_front_only.2.1 visPipe [hiddenPipe] visPipe_visible,
   obstacle_retirement_front_only.2.2.1 [hiddenPipe, visPipe] [] visPipe retire_concrete_eq,
   obstacle_retirement_front_only.2.2.2 visPipe⟩

/-- Claim C7 (amended): a tick taken in the paused state with an empty
event queue is the identity on the whole game state — no spawn, no
retirement, no motion, no scoring, no frame-count change.  (Event
handling, however, does run while paused; see the counterexample.) -/
theorem paused_tick_without_events_is_identity (r : ℕ) (c : Bool) (s : GameState)
    (hp : s.paused = true) : tick [] r c s = s := by
  unfold tick spawnStep processEvents
  simp [hp]

/-- Witness: a concrete paused tick with no events changes nothing. -/
theorem paused_tick_without_events_is_identity_witness :
    pausedState.paused = true ∧ tick [] 1 false pausedState = pausedState :=
  ⟨rfl, paused_tick_without_events_is_identity 1 false pausedState rfl⟩

/-- Counterexample to claim C7 as stated: a flap event arriving during a
paused tick mutates the bird's remaining climb time (the event loop runs
before the `paused` check), so a paused tick is not mutation-free. -/
theorem paused_tick_flap_mutates_bird :
    (tick [GameEvent.flap] 1 false pausedState).bird.free_fall_time ≠
      pausedState.bird.free_fall_time := by
  have h : tick [GameEvent.flap] 1 false pausedState =
      { pausedState with
        bird := { pausedState.bird with free_fall_time := Bird.CLIMB_DURATION } } := by
    simp [tick, spawnStep, processEvents, pausedState]
  rw [h]
  norm_num [pausedState, groundedBird, Bird.CLIMB_DURATION]

/-- Claim C5 (amended): the terminal check is inclusive at the
boundaries.  For an unpaused tick with no events and no pixel
collision, `done` ends up true exactly when it already was, or the
bird's pre-update `y` satisfies `y <= 0` or
`y >= SCREEN_HEIGHT - Bird.HEIGHT`; in particular `y` exactly equal to
the lower boundary already triggers the terminal condition on that very
tick. -/
theorem terminal_check_is_inclusive (r : ℕ) (s : GameState) (hp : s.paused = false) :
    ((tick [] r false s).done = true ↔
      (s.done = true ∨ s.bird.y ≤ 0 ∨
        ((SCREEN_HEIGHT : ℝ) - (Bird.HEIGHT : ℝ)) ≤ s.bird.y)) := by
  unfold tick
  have hsp := spawnStep_fields r s
  set s1 := spawnStep r s with hs1
  have hpe : processEvents [] s1 = s1 := rfl
  rw [hpe]
  rw [if_neg (by rw [hsp.2.2.1, hp]; simp)]
  have hdone : (frameClockStep (scoreStep (birdUpdateStep (pipesUpdateStep
      (retireStep (collisionStep false s1)))))).done = (collisionStep false s1).done := rfl
  rw [hdone, collisionStep_done]
  rw [hsp.2.1, hsp.2.2.2.1]
  by_cases hc : s.bird.y ≤ 0 ∨ ((SCREEN_HEIGHT : ℝ) - (Bird.HEIGHT : ℝ)) ≤ s.bird.y
  · rw [if_pos (Or.inr hc)]
    exact iff_of_true rfl (Or.inr hc)
  · have hneg : ¬((false = true) ∨ s.bird.y ≤ 0 ∨
        ((SCREEN_HEIGHT : ℝ) - (Bird.HEIGHT : ℝ)) ≤ s.bird.y) := by
      rintro (h | h)
      · exact absurd h (by simp)
      · exact hc h
    rw [if_neg hneg]
    exact (or_iff_left hc).symm

/-- Witness: the inclusive terminal check evaluated on the concrete
boundary state. -/
theorem terminal_check_is_inclusive_witness :
    boundaryState.paused = false ∧
    ((tick [] 1 false boundaryState).done = true ↔
      (boundaryState.done = true ∨ boundaryState.bird.y ≤ 0 ∨
        ((SCREEN_HEIGHT : ℝ) - (Bird.HEIGHT : ℝ)) ≤ boundaryState.bird.y)) :=
  ⟨rfl, terminal_check_is_inclusive 1 boundaryState rfl⟩

/-- Counterexample to claim C5 as stated: with the bird's `y` exactly
equal to `SCREEN_HEIGHT - Bird.HEIGHT` and no collision, the very tick
on which `y` equals the boundary already sets `done` — the code's test
is `bird.y >= SCREEN_HEIGHT - Bird.HEIGHT`, which includes equality. -/
theorem boundary_tick_triggers_terminal_now :
    boundaryState.bird.y = ((SCREEN_HEIGHT : ℝ) - (Bird.HEIGHT : ℝ)) ∧
    (tick [] 1 false boundaryState).done = true := by
  constructor
  · norm_num [boundaryState, boundaryBird, SCREEN_HEIGHT, Bird.HEIGHT]
  · have hspawn : spawnStep 1 boundaryState = boundaryState := by
      unfold spawnStep
      norm_num [boundaryState, add_interval_frames]
    unfold tick
    rw [show processEvents [] (spawnStep 1 boundaryState) = boundaryState by
      rw [hspawn]; rfl]
    rw [if_neg (by simp [boundaryState])]
    show (collisionStep false boundaryState).done = true
    unfold collisionStep
    have hcond : (false = true) ∨ boundaryState.bird.y ≤ 0 ∨
        ((SCREEN_HEIGHT : ℝ) - (Bird.HEIGHT : ℝ)) ≤ boundaryState.bird.y := by
      right; right
      norm_num [boundaryState, boundaryBird, SCREEN_HEIGHT, Bird.HEIGHT]
    rw [if_pos hcond]

/-- Claim C9 (amended): the bounds rectangles and the obstacle's
visibility test are pure functions of the entity's stored state (two
evaluations on equal state agree), while the bird's animation image and
collision mask are pure functions of the entity state and the global
millisecond clock jointly. -/
theorem accessors_pure_given_state_and_clock :
    (∀ b b' : Bird, b.x = b'.x → b.y = b'.y → b.rect = b'.rect) ∧
    (∀ p p' : PipePair, p.x = p'.x → p.visible = p'.visible ∧ p.rect = p'.rect) ∧
    (∀ (b b' : Bird) (t : ℕ), b.wing_up_img = b'.wing_up_img →
        b.wing_down_img = b'.wing_down_img → Bird.animate b t = Bird.animate b' t) ∧
    (∀ (b b' : Bird) (t : ℕ), b.mask_wingup = b'.mask_wingup →
        b.mask_wingdown = b'.mask_wingdown → Bird.mask b t = Bird.mask b' t) := by
  refine ⟨?_, ?_, ?_, ?_⟩
  · intro b b' hx hy
    simp [Bird.rect, hx, hy]
  · intro p p' hx
    exact ⟨by simp [PipePair.visible, hx], by simp [PipePair.rect, hx]⟩
  · intro b b' t h1 h2
    unfold Bird.animate
    rw [h1, h2]
  · intro b b' t h1 h2
    unfold Bird.mask
    rw [h1, h2]

/-- Witness for the purity statements on concrete entities. -/
theorem accessors_pure_witness :
    groundedBird.rect = groundedBird.rect ∧
    (visPipe.visible = visPipe.visible ∧ visPipe.rect = visPipe.rect) ∧
    Bird.animate groundedBird 7 = Bird.animate groundedBird 7 ∧
    Bird.mask groundedBird 7 = Bird.mask groundedBird 7 :=
  ⟨accessors_pure_given_state_and_clock.1 groundedBird groundedBird rfl rfl,
   accessors_pure_given_state_and_clock.2.1 visPipe visPipe rfl,
   accessors_pure_given_state_and_clock.2.2.1 groundedBird groundedBird 7 rfl rfl,
   accessors_pure_given_state_and_clock.2.2.2 groundedBird groundedBird 7 rfl rfl⟩

/-- Counterexample to claim C9 as stated: the bird's animation image and
mask read the process-global millisecond clock, so two evaluations on
the identical entity state can differ — they are not functions of the
entity state alone. -/
theorem accessor_clock_dependence_counterexample :
    ¬ (∀ (b : Bird) (t t' : ℕ),
        Bird.animate b t = Bird.animate b t' ∧ Bird.mask b t = Bird.mask b t') := by
  intro h
  have h1 := (h groundedBird 4 0).1
  norm_num [Bird.animate, groundedBird] at h1

/-- Claim C10: a freshly constructed pipe sits at
`x = SCREEN_WIDTH - 1` with its scored flag clear, satisfies the
visibility predicate, and therefore survives the retirement loop on the
tick it is appended (for any deque it is appended to). -/
theorem fresh_pipe_spawn_state (r : ℕ) (ps : List PipePair) :
    (PipePair.init r).x = (SCREEN_WIDTH : ℚ) - 1 ∧
    (PipePair.init r).score_count = false ∧
    (PipePair.init r).visible = true ∧
    PipePair.init r ∈ retirePipes (ps ++ [PipePair.init r]) := by
  have hvis : (PipePair.init r).visible = true := by
    norm_num [PipePair.visible, PipePair.init, SCREEN_WIDTH, PipePair.WIDTH]
  exact ⟨rfl, rfl, hvis, mem_retirePipes_of_visible_last _ hvis ps⟩

end FlappyBird
